import Mathlib

set_option linter.unusedVariables false

/-!  # Verification of the consolidated-music catalog core

This development is a shallow embedding of the catalog-consistency core of the
song-scraping repository: the `SmartSongManager` of `batch_artist_scraper.py`
(identity resolution, playlist/artist attachment, database save), the
`PlaylistRemover` of `remove_playlist.py` (cascade delete), and the save
routines of `song_cleanup_tool.py` and `playlist_song_downloader.py`.

Python dicts are embedded as association lists preserving insertion order;
`dict.get(k, default)` becomes an `Option`-valued lookup with an explicit
default; JSON documents become structures; interactive prompts and the
filesystem/network collaborators become explicit parameters (a confirmation
answer, a selection pick, a per-store write-success oracle) and explicit
result logs (stores written, song files whose deletion was attempted).
-/

namespace SongCatalog

/-- Association list standing for a Python dict (insertion order preserved;
the operations below keep keys unique when the input keys are unique). -/
abbrev AList (α : Type) := List (String × α)

/-- Python `d.get(k)` / `d[k]`: first binding of `k`, if any. -/
def alookup {α : Type} : AList α → String → Option α
  | [], _ => none
  | (k', v) :: t, k => if k' = k then some v else alookup t k

/-- Python `d[k] = v`: replaces the binding in place, or appends a new one
(Python dicts keep the original insertion position on update). -/
def aset {α : Type} : AList α → String → α → AList α
  | [], k, v => [(k, v)]
  | (k', v') :: t, k, v => if k' = k then (k, v) :: t else (k', v') :: aset t k v

/-- Python `del d[k]`: removes the (first) binding of `k`.  Every `del` in the
sources is guarded by a membership test, so the absent case never fires. -/
def aerase {α : Type} : AList α → String → AList α
  | [], _ => []
  | (k', v') :: t, k => if k' = k then t else (k', v') :: aerase t k

/-- Membership of a key, `k in d`. -/
def amem {α : Type} (m : AList α) (k : String) : Bool :=
  (alookup m k).isSome

/-! ## Python string primitives used by the sources -/

/-- The whitespace class of Python `str.strip()` (ASCII part). -/
def isPySpace (c : Char) : Bool :=
  c == ' ' || c == '\t' || c == '\n' || c == '\r' || c == '\x0b' || c == '\x0c'

/-- Python `s.lower()` (ASCII case fold; non-ASCII letters never survive the
`[^a-z0-9_]` stripping that follows every use in the sources). -/
def pyLower (s : String) : String := ⟨s.toList.map Char.toLower⟩

/-- Python `s.strip()`. -/
def pyStrip (s : String) : String :=
  ⟨((s.toList.dropWhile isPySpace).reverse.dropWhile isPySpace).reverse⟩

def isPrefixList : List Char → List Char → Bool
  | [], _ => true
  | _ :: _, [] => false
  | a :: as, b :: bs => a == b && isPrefixList as bs

def hasSubstr (needle : List Char) : List Char → Bool
  | [] => needle.isEmpty
  | c :: t => isPrefixList needle (c :: t) || hasSubstr needle t

/-- Python's `needle in hay` on strings (substring containment). -/
def strIn (needle hay : String) : Bool := hasSubstr needle.toList hay.toList

/-! ## MD5 (`hashlib.md5`), on `Nat` with explicit reduction mod `2^32` -/

def w32 : Nat := 4294967296

def add32 (a b : Nat) : Nat := (a + b) % w32

def rotl32 (x n : Nat) : Nat :=
  (x % w32) * 2 ^ n % w32 + x % w32 / 2 ^ (32 - n)

/-- The 64 round constants `floor(2^32 * |sin(i+1)|)`. -/
def md5K : List Nat :=
  [3614090360, 3905402710, 606105819, 3250441966, 4118548399, 1200080426, 2821735955, 4249261313,
   1770035416, 2336552879, 4294925233, 2304563134, 1804603682, 4254626195, 2792965006, 1236535329,
   4129170786, 3225465664, 643717713, 3921069994, 3593408605, 38016083, 3634488961, 3889429448,
   568446438, 3275163606, 4107603335, 1163531501, 2850285829, 4243563512, 1735328473, 2368359562,
   4294588738, 2272392833, 1839030562, 4259657740, 2763975236, 1272893353, 4139469664, 3200236656,
   681279174, 3936430074, 3572445317, 76029189, 3654602809, 3873151461, 530742520, 3299628645,
   4096336452, 1126891415, 2878612391, 4237533241, 1700485571, 2399980690, 4293915773, 2240044497,
   1873313359, 4264355552, 2734768916, 1309151649, 4149444226, 3174756917, 718787259, 3951481745]

/-- Per-round left-rotation amounts. -/
def md5S : List Nat :=
  [7, 12, 17, 22, 7, 12, 17, 22, 7, 12, 17, 22, 7, 12, 17, 22,
   5, 9, 14, 20, 5, 9, 14, 20, 5, 9, 14, 20, 5, 9, 14, 20,
   4, 11, 16, 23, 4, 11, 16, 23, 4, 11, 16, 23, 4, 11, 16, 23,
   6, 10, 15, 21, 6, 10, 15, 21, 6, 10, 15, 21, 6, 10, 15, 21]

/-- The round mixing functions F, G, H, I (complement as xor with the
all-ones 32-bit mask). -/
def md5F (i b c d : Nat) : Nat :=
  if i < 16 then (b &&& c) ||| ((b ^^^ 4294967295) &&& d)
  else if i < 32 then (d &&& b) ||| ((d ^^^ 4294967295) &&& c)
  else if i < 48 then b ^^^ c ^^^ d
  else c ^^^ (b ||| (d ^^^ 4294967295))

/-- Message-word index used in round `i`. -/
def md5G (i : Nat) : Nat :=
  if i < 16 then i
  else if i < 32 then (5 * i + 1) % 16
  else if i < 48 then (3 * i + 5) % 16
  else 7 * i % 16

/-- Padding: a `0x80` byte, zeros to 56 mod 64, then the bit length as
8 little-endian bytes (mod `2^64`). -/
def md5Pad (msg : List Nat) : List Nat :=
  let len := msg.length
  let zeros := (119 - len % 64) % 64
  msg ++ [128] ++ List.replicate zeros 0 ++
    (List.range 8).map (fun i => 8 * len / 2 ^ (8 * i) % 256)

/-- Little-endian 32-bit words of one 64-byte chunk. -/
def md5Words (chunk : List Nat) (j : Nat) : Nat :=
  chunk.getD (4 * j) 0 + 256 * chunk.getD (4 * j + 1) 0 +
    65536 * chunk.getD (4 * j + 2) 0 + 16777216 * chunk.getD (4 * j + 3) 0

def md5Round (m : Nat → Nat) (st : Nat × Nat × Nat × Nat) (i : Nat) :
    Nat × Nat × Nat × Nat :=
  let f := add32 (add32 (add32 st.1 (md5F i st.2.1 st.2.2.1 st.2.2.2)) (md5K.getD i 0))
    (m (md5G i))
  (st.2.2.2, add32 st.2.1 (rotl32 f (md5S.getD i 0)), st.2.1, st.2.2.1)

def md5Chunk (st : Nat × Nat × Nat × Nat) (chunk : List Nat) :
    Nat × Nat × Nat × Nat :=
  let r := (List.range 64).foldl (md5Round (md5Words chunk)) st
  (add32 st.1 r.1, add32 st.2.1 r.2.1, add32 st.2.2.1 r.2.2.1, add32 st.2.2.2 r.2.2.2)

def hexChar (n : Nat) : Char := "0123456789abcdef".toList.getD n 'x'

/-- Two lowercase hex digits per byte, bytes little-endian within the word. -/
def wordHexLE (x : Nat) : List Char :=
  ((List.range 4).map (fun i =>
    let b := x / 2 ^ (8 * i) % 256
    [hexChar (b / 16), hexChar (b % 16)])).flatten

/-- Computes `hashlib.md5(s.encode()).hexdigest()`. -/
def md5hex (s : String) : String :=
  let msg := (s.toUTF8.toList).map (fun b => b.toNat)
  let padded := md5Pad msg
  let chunks := (List.range (padded.length / 64)).map
    (fun i => (padded.drop (64 * i)).take 64)
  let d := chunks.foldl md5Chunk (1732584193, 4023233417, 2562383102, 271733878)
  ⟨wordHexLE d.1 ++ wordHexLE d.2.1 ++ wordHexLE d.2.2.1 ++ wordHexLE d.2.2.2⟩

/-! ## Data model

The per-song JSON record nests its descriptive fields under a `metadata`
sub-dict; they are flattened into the `Song` structure here (the field names
are the source's dict keys).  Fields of the records that no function of the
consistency core ever reads (cover art, duration, file paths, …) are
omitted. -/

/-- One record of `songs_database.json` (`metadata` flattened; `status` is
`download_info['status']`). -/
structure Song where
  track_name : String
  artists_string : String
  track_uri : String
  playlists : List String
  status : String
  added_at : String
deriving DecidableEq, Repr

/-- One record of `artists_database.json`. -/
structure Artist where
  name : String
  uri : String
  playlist_ids : List String
  created_at : String
  last_updated : String
deriving DecidableEq, Repr

/-- One record of `playlists_database.json`.  The scraper and the downloader
write the member list under the dict key `'songs'`; `remove_playlist.py`
reads the key `'song_ids'` with default `[]`.  Both keys are modelled as
fields; a record whose underlying dict lacks one of them carries `[]` there,
which is exactly what the sources' `.get(key, [])` reads observe. -/
structure Playlist where
  name : String
  songs : List String
  song_ids : List String
  total_tracks : Nat
  successful_downloads : Nat
  created_at : String
  last_updated : String
deriving DecidableEq, Repr

/-- One element of a track descriptor's `artists_info`. -/
structure ArtistRef where
  name : String
  uri : String
deriving DecidableEq, Repr

/-- An incoming track descriptor (`track_info` in `process_artist_tracks`). -/
structure TrackInfo where
  track_name : String
  artists_string : String
  artists_info : List ArtistRef
  track_uri : String
deriving DecidableEq, Repr

/-- Document `songs_database.json` as a whole document. -/
structure SongsDb where
  songs : AList Song
  total_songs : Nat
  last_updated : String
deriving DecidableEq, Repr

/-- Document `playlists_database.json` as a whole document. -/
structure PlaylistsDb where
  playlists : AList Playlist
  total_playlists : Nat
  last_updated : String
deriving DecidableEq, Repr

/-- Document `artists_database.json` as a whole document. -/
structure ArtistsDb where
  artists : AList Artist
  total_artists : Nat
  last_updated : String
deriving DecidableEq, Repr

/-- Document `song_playlist_mapping.json` as a whole document. -/
structure MappingDb where
  mapping : AList (List String)
  last_updated : String
deriving DecidableEq, Repr

/-- Tags for the four stores, used by the write logs of the save routines. -/
inductive StoreTag where
  | songs
  | playlists
  | artists
  | mapping
deriving DecidableEq, Repr

namespace BatchArtistScraper

/-- Source `SmartSongManager.generate_song_id`: lower-case `f"{track_name}_{artists}"`,
strip every character outside `[a-z0-9_]`, md5, keep the first 12 hex digits. -/
def generate_song_id (track_name artists : String) : String :=
  let clean_string : String :=
    ⟨(pyLower (track_name ++ "_" ++ artists)).toList.filter
      (fun c => decide (('a' ≤ c ∧ c ≤ 'z') ∨ ('0' ≤ c ∧ c ≤ '9') ∨ c = '_'))⟩
  "song_" ++ (md5hex clean_string).take 12

/-- The in-memory state of a `SmartSongManager`. -/
structure SmartState where
  existing_songs : AList Song
  existing_playlists : AList Playlist
  existing_artists : AList Artist
  uri_to_song_id : AList String
  name_artist_to_song_id : AList String
deriving DecidableEq, Repr

/-- The lookup-table construction of `load_existing_databases`: one pass over
the songs store, indexing each song id under its `track_uri` (when non-empty)
and under `lower(strip(track_name))|lower(strip(artists_string))` (when both
parts are non-empty). -/
def buildLookups (songs : AList Song) : AList String × AList String :=
  songs.foldl
    (fun idx ks =>
      let uriIdx :=
        if ks.2.track_uri ≠ "" then aset idx.1 ks.2.track_uri ks.1 else idx.1
      let tn := pyStrip (pyLower ks.2.track_name)
      let ar := pyStrip (pyLower ks.2.artists_string)
      let nameIdx :=
        if tn ≠ "" ∧ ar ≠ "" then aset idx.2 (tn ++ "|" ++ ar) ks.1 else idx.2
      (uriIdx, nameIdx))
    ([], [])

/-- Source `SmartSongManager.__init__` + `load_existing_databases`: the three loaded
stores plus the two derived lookup tables. -/
def loadManager (songs : AList Song) (playlists : AList Playlist)
    (artists : AList Artist) : SmartState :=
  { existing_songs := songs
    existing_playlists := playlists
    existing_artists := artists
    uri_to_song_id := (buildLookups songs).1
    name_artist_to_song_id := (buildLookups songs).2 }

/-- Source `SmartSongManager.find_existing_song`: URI lookup first (skipped for an
empty uri), then the normalized name+artist key (skipped when either part is
empty).  The source returns the `(song_id, song_info)` pair; only the id is
consumed, so the embedding returns the id. -/
def find_existing_song (sm : SmartState) (t : TrackInfo) : Option String :=
  let track_name := pyStrip (pyLower t.track_name)
  let artists := pyStrip (pyLower t.artists_string)
  match (if t.track_uri = "" then none else alookup sm.uri_to_song_id t.track_uri) with
  | some song_id => some song_id
  | none =>
      if track_name ≠ "" ∧ artists ≠ "" then
        alookup sm.name_artist_to_song_id (track_name ++ "|" ++ artists)
      else none

/-- The song id a descriptor ends up recorded under in
`process_artist_tracks`: the resolved existing id when `find_existing_song`
hits, else the freshly generated id. -/
def resolveSongId (sm : SmartState) (t : TrackInfo) : String :=
  (find_existing_song sm t).getD (generate_song_id t.track_name t.artists_string)

/-- Source `SmartSongManager.add_playlist_to_song`: append the playlist id to the
song's list when the song exists and the id is absent; report whether a
mutation happened. -/
def add_playlist_to_song (songs : AList Song) (song_id playlist_id : String) :
    Bool × AList Song :=
  match alookup songs song_id with
  | some s =>
      if playlist_id ∈ s.playlists then (false, songs)
      else (true, aset songs song_id { s with playlists := s.playlists ++ [playlist_id] })
  | none => (false, songs)

/-- Source `SmartSongManager.store_artist_info`: create the artist on first sight
with the single playlist id, else append the id when absent (stamping
`last_updated`); an existing artist that already holds the id is untouched. -/
def store_artist_info (now : String) (artists : AList Artist)
    (artist_uri artist_name playlist_key : String) : AList Artist :=
  match alookup artists artist_uri with
  | some a =>
      if playlist_key ∈ a.playlist_ids then artists
      else aset artists artist_uri
        { a with playlist_ids := a.playlist_ids ++ [playlist_key], last_updated := now }
  | none =>
      aset artists artist_uri
        { name := artist_name, uri := artist_uri, playlist_ids := [playlist_key],
          created_at := now, last_updated := now }

/-- The fresh song record installed by `process_artist_tracks` for an
unresolved descriptor. -/
def newSongEntry (now playlist_key : String) (t : TrackInfo) : Song :=
  { track_name := t.track_name
    artists_string := t.artists_string
    track_uri := t.track_uri
    playlists := [playlist_key]
    status := "pending"
    added_at := now }

/-- The catalog mutations of one iteration of the track loop of
`process_artist_tracks` (lines 541–612): store every credited artist, then
either attach the playlist to the resolved existing song or install a new
record under the generated id.  Printing and the download queue are outside
the catalog. -/
def processTrack (now playlist_key : String) (sm : SmartState) (t : TrackInfo) :
    SmartState :=
  let artists' := t.artists_info.foldl
    (fun acc ar => store_artist_info now acc ar.uri ar.name playlist_key)
    sm.existing_artists
  let sm := { sm with existing_artists := artists' }
  match find_existing_song sm t with
  | some existing_id =>
      { sm with existing_songs := (add_playlist_to_song sm.existing_songs existing_id playlist_key).2 }
  | none =>
      let song_id := generate_song_id t.track_name t.artists_string
      { sm with existing_songs := aset sm.existing_songs song_id (newSongEntry now playlist_key t) }

/-- The playlist record built by `process_artist_tracks` (lines 622–632).
The member list goes under the `'songs'` dict key; no `'song_ids'` key is
written, so that field reads as `[]`. -/
def mkPlaylistEntry (now playlist_name : String) (song_ids : List String)
    (successful_downloads : Nat) : Playlist :=
  { name := playlist_name
    songs := song_ids
    song_ids := []
    total_tracks := song_ids.length
    successful_downloads := successful_downloads
    created_at := now
    last_updated := now }

/-- The four documents written by `save_databases` of
`batch_artist_scraper.py`: each document is rebuilt from the live in-memory
collection, with `total_*` set to the collection's length, `last_updated`
stamped, and the mapping document regenerated from each song's `playlists`
list. -/
def save_databases (now : String) (sm : SmartState) :
    SongsDb × PlaylistsDb × ArtistsDb × MappingDb :=
  ({ songs := sm.existing_songs
     total_songs := sm.existing_songs.length
     last_updated := now },
   { playlists := sm.existing_playlists
     total_playlists := sm.existing_playlists.length
     last_updated := now },
   { artists := sm.existing_artists
     total_artists := sm.existing_artists.length
     last_updated := now },
   { mapping := sm.existing_songs.map (fun ks => (ks.1, ks.2.playlists))
     last_updated := now })

end BatchArtistScraper

namespace PlaylistRemover

/-- The in-memory state of a `PlaylistRemover`.  `load_databases` leaves
`artists_db`/`mapping_db` as the falsy `{}` when the file is absent
(`none` here); the songs and playlists documents are required (the caller
aborts without them). -/
structure RPState where
  songs_db : SongsDb
  playlists_db : PlaylistsDb
  artists_db : Option ArtistsDb
  mapping_db : Option MappingDb
deriving DecidableEq, Repr

/-- The candidate list of `find_playlist_by_name`: case-insensitive
containment in either direction between the query and each stored name. -/
def matchesFor (st : RPState) (playlist_name : String) : List (String × String) :=
  st.playlists_db.playlists.filterMap (fun kp =>
    let stored_name := pyLower kp.2.name
    let search_name := pyLower playlist_name
    if strIn search_name stored_name || strIn stored_name search_name then
      some (kp.1, kp.2.name)
    else none)

/-- Source `PlaylistRemover.find_playlist_by_name`.  With several candidates the
source loops on `input()` until a valid 1-based selection or `q`; the
terminating outcomes of that loop are modelled by `pick` (`none` = quit,
`some i` = the zero-based index eventually chosen). -/
def find_playlist_by_name (st : RPState) (playlist_name : String)
    (pick : Option Nat) : Option String :=
  match matchesFor st playlist_name with
  | [] => none
  | [m] => some m.1
  | ms => pick.bind (fun i => (ms.get? i).map Prod.fst)

/-- Source `PlaylistRemover.get_songs_in_playlist`: reads the `'song_ids'` key of
the playlist record, defaulting to `[]` (both for a missing playlist and for
a record without that key). -/
def get_songs_in_playlist (st : RPState) (playlist_id : String) : List String :=
  ((alookup st.playlists_db.playlists playlist_id).map Playlist.song_ids).getD []

/-- Source `PlaylistRemover.remove_playlist_from_songs`: for each listed song id,
drop the playlist id from the song's `playlists` list (in the songs store —
the source mutates `self.songs_db` here) and record the action
`"remove"` (list became empty) or `"keep"`.  Unknown song ids are skipped
with a warning. -/
def remove_playlist_from_songs (playlist_id : String) (song_ids : List String)
    (songs : AList Song) : AList (String) × AList Song :=
  song_ids.foldl
    (fun acc song_id =>
      match alookup acc.2 song_id with
      | some s =>
          let song_playlists :=
            if playlist_id ∈ s.playlists then s.playlists.erase playlist_id
            else s.playlists
          let songs' :=
            if playlist_id ∈ s.playlists then
              aset acc.2 song_id { s with playlists := song_playlists }
            else acc.2
          (aset acc.1 song_id (if song_playlists = [] then "remove" else "keep"), songs')
      | none => acc)
    ([], songs)

/-- Source `PlaylistRemover.clean_artists_database` on the artists collection:
every artist holding the playlist id loses it (first occurrence, via Python
`list.remove`) and is stamped; an artist whose list becomes empty is
deleted (the source collects those during the loop and deletes them after;
the resulting collection, in order, is this recursion). -/
def clean_artists_database (now playlist_id : String) : AList Artist → AList Artist
  | [] => []
  | (k, a) :: t =>
      if playlist_id ∈ a.playlist_ids then
        let playlist_ids := a.playlist_ids.erase playlist_id
        if playlist_ids = [] then clean_artists_database now playlist_id t
        else (k, { a with playlist_ids := playlist_ids, last_updated := now }) ::
          clean_artists_database now playlist_id t
      else (k, a) :: clean_artists_database now playlist_id t

/-- The mapping mutation of `PlaylistRemover.update_mapping_database`:
delete the entries of the songs being removed (each `del` is guarded by a
membership test); nothing else is touched. -/
def update_mapping_core (songs_to_remove : List String)
    (mapping : AList (List String)) : AList (List String) :=
  songs_to_remove.foldl aerase mapping

/-- Source `PlaylistRemover.save_databases`: one `try` block that stamps and writes
the four documents in order (artists and mapping only when their document is
loaded/truthy).  `ok` tells whether a given store's file write succeeds; the
first failing write raises, abandoning the remaining writes and returning
`False`.  Also returns the stores whose write was attempted. -/
def save_databases (ok : StoreTag → Bool) (now : String) (st : RPState) :
    Bool × RPState × List StoreTag :=
  let sdb := { st.songs_db with last_updated := now, total_songs := st.songs_db.songs.length }
  let st := { st with songs_db := sdb }
  if ¬ ok StoreTag.songs then (false, st, [StoreTag.songs]) else
  let pdb := { st.playlists_db with last_updated := now, total_playlists := st.playlists_db.playlists.length }
  let st := { st with playlists_db := pdb }
  if ¬ ok StoreTag.playlists then (false, st, [StoreTag.songs, StoreTag.playlists]) else
  match st.artists_db with
  | some adb =>
      let adb' := { adb with last_updated := now, total_artists := adb.artists.length }
      let st := { st with artists_db := some adb' }
      if ¬ ok StoreTag.artists then
        (false, st, [StoreTag.songs, StoreTag.playlists, StoreTag.artists])
      else
        match st.mapping_db with
        | some mdb =>
            let st := { st with mapping_db := some { mdb with last_updated := now } }
            if ¬ ok StoreTag.mapping then
              (false, st, [StoreTag.songs, StoreTag.playlists, StoreTag.artists, StoreTag.mapping])
            else
              (true, st, [StoreTag.songs, StoreTag.playlists, StoreTag.artists, StoreTag.mapping])
        | none => (true, st, [StoreTag.songs, StoreTag.playlists, StoreTag.artists])
  | none =>
      match st.mapping_db with
      | some mdb =>
          let st := { st with mapping_db := some { mdb with last_updated := now } }
          if ¬ ok StoreTag.mapping then
            (false, st, [StoreTag.songs, StoreTag.playlists, StoreTag.mapping])
          else
            (true, st, [StoreTag.songs, StoreTag.playlists, StoreTag.mapping])
      | none => (true, st, [StoreTag.songs, StoreTag.playlists])

/-- The destructive section of `remove_playlist` (after the confirmation
prompt): drop the playlist record, drop the `"remove"`-classified songs,
clean the artists store, prune the mapping entries of the dropped songs,
then save. -/
def applyRemoval (ok : StoreTag → Bool) (now playlist_id : String)
    (songs_to_remove : List String) (st : RPState) :
    Bool × RPState × List StoreTag × List String :=
  let playlists' := aerase st.playlists_db.playlists playlist_id
  let songs' := songs_to_remove.foldl aerase st.songs_db.songs
  let artists' := st.artists_db.map (fun adb =>
    { adb with artists := clean_artists_database now playlist_id adb.artists })
  let mapping' := st.mapping_db.map (fun mdb =>
    { mdb with mapping := update_mapping_core songs_to_remove mdb.mapping })
  let st' : RPState :=
    { songs_db := { st.songs_db with songs := songs' }
      playlists_db := { st.playlists_db with playlists := playlists' }
      artists_db := artists'
      mapping_db := mapping' }
  let saved := save_databases ok now st'
  (saved.1, saved.2.1, saved.2.2, songs_to_remove)

/-- Source `PlaylistRemover.remove_playlist`.  External interactions become
parameters: `pick` resolves a multi-match prompt, `answerYes` is the
confirmation reply (read only when `confirm` is true), `ok` is the
per-store write oracle of the final save.  Result: the returned boolean,
the final in-memory state, the store files whose write was attempted, and
the song ids whose audio files the tool tried to delete from disk. -/
def remove_playlist (ok : StoreTag → Bool) (now : String) (pick : Option Nat)
    (answerYes confirm : Bool) (st : RPState) (playlist_name : String) :
    Bool × RPState × List StoreTag × List String :=
  match find_playlist_by_name st playlist_name pick with
  | none => (false, st, [], [])
  | some playlist_id =>
    -- `if not playlist_id:` also treats an empty-string id as not found
    if playlist_id = "" then (false, st, [], []) else
    let song_ids := get_songs_in_playlist st playlist_id
    -- impact analysis (already mutates the songs store)
    let analysis := remove_playlist_from_songs playlist_id song_ids st.songs_db.songs
    let songs_to_remove := (analysis.1.filter (fun a => a.2 = "remove")).map Prod.fst
    let st' := { st with songs_db := { st.songs_db with songs := analysis.2 } }
    if confirm ∧ ¬ answerYes then (false, st', [], [])
    else applyRemoval ok now playlist_id songs_to_remove st'

end PlaylistRemover

namespace SongCleanupTool

/-- The in-memory state of a `SongCleanupTool` (all four documents load with
default `{}`, modelled as present documents). -/
structure CTState where
  songs_db : SongsDb
  playlists_db : PlaylistsDb
  mapping_db : MappingDb
  artists_db : ArtistsDb
deriving DecidableEq, Repr

/-- Source `SongCleanupTool.save_all_databases`: the four writes happen in four
independent `if save_json_file(...)` statements (`save_json_file` catches its
own exceptions and returns a boolean), each incrementing a success tally.
Returns the tally and the stores whose write was attempted, in order. -/
def save_all_databases (ok : StoreTag → Bool) (st : CTState) :
    Nat × List StoreTag :=
  let c1 := if ok StoreTag.songs then 1 else 0
  let c2 := if ok StoreTag.playlists then 1 else 0
  let c3 := if ok StoreTag.mapping then 1 else 0
  let c4 := if ok StoreTag.artists then 1 else 0
  (c1 + c2 + c3 + c4,
   [StoreTag.songs, StoreTag.playlists, StoreTag.mapping, StoreTag.artists])

end SongCleanupTool

namespace PlaylistSongDownloader

/-- The in-memory state of a `PlaylistSongDownloader` (three documents). -/
structure PDState where
  songs_db : SongsDb
  playlists_db : PlaylistsDb
  mapping_db : MappingDb
deriving DecidableEq, Repr

/-- Source `PlaylistSongDownloader.save_databases`: three independent
`save_json_file` writes of the in-memory documents exactly as they stand —
no `total_*` recomputation and no `last_updated` stamping happen here.
Returns the success tally and the documents as written. -/
def save_databases (ok : StoreTag → Bool) (st : PDState) : Nat × PDState :=
  let c1 := if ok StoreTag.songs then 1 else 0
  let c2 := if ok StoreTag.playlists then 1 else 0
  let c3 := if ok StoreTag.mapping then 1 else 0
  (c1 + c2 + c3, st)

end PlaylistSongDownloader

/-! ## Concrete inputs used by witnesses, counterexamples and failing-input
evaluations -/

/-- Write oracle: every store write succeeds. -/
def allOk : StoreTag → Bool := fun _ => true

/-- Write oracle: the songs-store write fails, every other write would
succeed. -/
def okNoSongs : StoreTag → Bool := fun t =>
  match t with
  | StoreTag.songs => false
  | _ => true

/-- Literal song record builder for test states. -/
def mkSong (n a u : String) (pl : List String) : Song :=
  { track_name := n, artists_string := a, track_uri := u, playlists := pl,
    status := "completed", added_at := "2024-01-01" }

/-- A playlist record of the legacy shape `remove_playlist.py` expects: the
member list sits under the `'song_ids'` key. -/
def mkOldPlaylist (nm : String) (sids : List String) : Playlist :=
  { name := nm, songs := [], song_ids := sids, total_tracks := sids.length,
    successful_downloads := 0, created_at := "2024-01-01", last_updated := "2024-01-01" }

/-- A catalog exactly as the scraper persists it: one song in one
artist-discography playlist (member list under `'songs'`, so `'song_ids'`
reads as `[]`), with consistent artists and mapping stores. -/
def c1state : PlaylistRemover.RPState :=
  { songs_db :=
      { songs := [("song_0000000001", mkSong "Tum Hi Ho" "Arijit Singh" "spotify:track:t1" ["artist_A1"])]
        total_songs := 1
        last_updated := "2024-01-01" }
    playlists_db :=
      { playlists := [("artist_A1",
          BatchArtistScraper.mkPlaylistEntry "2024-01-01" "Arijit Singh - Discography" ["song_0000000001"] 1)]
        total_playlists := 1
        last_updated := "2024-01-01" }
    artists_db := some
      { artists := [("spotify:artist:A1",
          { name := "Arijit Singh", uri := "spotify:artist:A1", playlist_ids := ["artist_A1"],
            created_at := "2024-01-01", last_updated := "2024-01-01" })]
        total_artists := 1
        last_updated := "2024-01-01" }
    mapping_db := some
      { mapping := [("song_0000000001", ["artist_A1"])]
        last_updated := "2024-01-01" } }

/-- A catalog whose playlist record carries a populated `'song_ids'` list
(`["S1"]`), while song `S2` also references playlist `P1` without being
listed there; the mapping store mirrors the songs store. -/
def c2state : PlaylistRemover.RPState :=
  { songs_db :=
      { songs := [("S1", mkSong "a" "x" "" ["P1", "P2"]), ("S2", mkSong "b" "y" "" ["P1"])]
        total_songs := 2
        last_updated := "2024-01-01" }
    playlists_db :=
      { playlists := [("P1", mkOldPlaylist "AAA" ["S1"]), ("P2", mkOldPlaylist "BBB" ["S1"])]
        total_playlists := 2
        last_updated := "2024-01-01" }
    artists_db := some { artists := [], total_artists := 0, last_updated := "2024-01-01" }
    mapping_db := some
      { mapping := [("S1", ["P1", "P2"]), ("S2", ["P1"])]
        last_updated := "2024-01-01" } }

/-- A two-playlist catalog: song `S1` sits in `P1` (listed under
`'song_ids'`) and in `P2`. -/
def c3state : PlaylistRemover.RPState :=
  { songs_db :=
      { songs := [("S1", mkSong "a" "x" "" ["P1", "P2"])]
        total_songs := 1
        last_updated := "2024-01-01" }
    playlists_db :=
      { playlists := [("P1", mkOldPlaylist "AAA" ["S1"]), ("P2", mkOldPlaylist "BBB" ["S1"])]
        total_playlists := 2
        last_updated := "2024-01-01" }
    artists_db := some { artists := [], total_artists := 0, last_updated := "2024-01-01" }
    mapping_db := some
      { mapping := [("S1", ["P1", "P2"])]
        last_updated := "2024-01-01" } }

/-- A manager loaded from a store holding a song whose uri is `u1` but whose
stored title/artist is `b`/`y`, next to a song titled `A` by `X` without a
uri. -/
def c4manager : BatchArtistScraper.SmartState :=
  BatchArtistScraper.loadManager
    [("id1", mkSong "b" "y" "u1" ["P0"]), ("id2", mkSong "A" "X" "" ["P0"])] [] []

/-- Descriptor `{title: A, artist: X, uri: u1}`. -/
def c4desc1 : TrackInfo :=
  { track_name := "A", artists_string := "X", artists_info := [], track_uri := "u1" }

/-- Descriptor `{title: A, artist: X}` without a uri. -/
def c4desc2 : TrackInfo :=
  { track_name := "A", artists_string := "X", artists_info := [], track_uri := "" }

/-- A manager loaded from a store holding only the song `A` by `X` (no uri),
so the uri index is empty and the name index holds `a|x`. -/
def c4managerW : BatchArtistScraper.SmartState :=
  BatchArtistScraper.loadManager [("id2", mkSong "A" "X" "" ["P0"])] [] []

/-- Descriptor `{title: A, artist: X, uri: u9}` whose uri is unindexed. -/
def c4desc1W : TrackInfo :=
  { track_name := "A", artists_string := "X", artists_info := [], track_uri := "u9" }

/-- A manager loaded from a store whose only song has uri `u1` and
title/artist `b`/`y`. -/
def c9manager : BatchArtistScraper.SmartState :=
  BatchArtistScraper.loadManager [("s1", mkSong "b" "y" "u1" ["P0"])] [] []

/-- A remover state with loaded (truthy) artists and mapping documents. -/
def c5state : PlaylistRemover.RPState :=
  { songs_db := { songs := [], total_songs := 0, last_updated := "2024-01-01" }
    playlists_db := { playlists := [], total_playlists := 0, last_updated := "2024-01-01" }
    artists_db := some { artists := [], total_artists := 0, last_updated := "2024-01-01" }
    mapping_db := some { mapping := [], last_updated := "2024-01-01" } }

/-- An artist referencing the two playlists `P1` and `P2`. -/
def c6artist1 : Artist :=
  { name := "N1", uri := "u1", playlist_ids := ["P1", "P2"],
    created_at := "t0", last_updated := "t0" }

/-- An artist referencing only playlist `P1`. -/
def c6artist2 : Artist :=
  { name := "N2", uri := "u2", playlist_ids := ["P1"],
    created_at := "t0", last_updated := "t0" }

/-- An artists store with one two-playlist artist and one single-playlist
artist. -/
def c6artists : AList Artist := [("u1", c6artist1), ("u2", c6artist2)]

/-- A downloader state whose songs document carries a stale counter and
timestamp relative to its (empty) songs collection. -/
def c8state : PlaylistSongDownloader.PDState :=
  { songs_db := { songs := [], total_songs := 1, last_updated := "2024-01-01" }
    playlists_db := { playlists := [], total_playlists := 0, last_updated := "2024-01-01" }
    mapping_db := { mapping := [], last_updated := "2024-01-01" } }

/-- A remover state with a single playlist named `Rock`. -/
def c10state : PlaylistRemover.RPState :=
  { songs_db := { songs := [], total_songs := 0, last_updated := "2024-01-01" }
    playlists_db := { playlists := [("P1", mkOldPlaylist "Rock" [])], total_playlists := 1, last_updated := "2024-01-01" }
    artists_db := none
    mapping_db := none }

/-! ## Association-list lemmas -/

theorem alookup_aset_self {α : Type} (m : AList α) (k : String) (v : α) :
    alookup (aset m k v) k = some v := by
  induction m with
  | nil => simp [aset, alookup]
  | cons p t ih =>
      by_cases hk : p.1 = k
      · simp [aset, hk, alookup]
      · simp [aset, hk, alookup, ih]

theorem alookup_aset_ne {α : Type} (m : AList α) (k k' : String) (v : α)
    (h : k' ≠ k) : alookup (aset m k v) k' = alookup m k' := by
  have h' : ¬ (k = k') := fun e => h e.symm
  induction m with
  | nil => simp [aset, alookup, h']
  | cons p t ih =>
      by_cases hk : p.1 = k
      · simp [aset, hk, alookup, h']
      · simp [aset, hk, alookup, ih]

theorem alookup_aerase_ne {α : Type} (m : AList α) (k k' : String)
    (h : k' ≠ k) : alookup (aerase m k) k' = alookup m k' := by
  have h' : ¬ (k = k') := fun e => h e.symm
  induction m with
  | nil => simp [aerase, alookup]
  | cons p t ih =>
      by_cases hk : p.1 = k
      · simp [aerase, alookup, hk, h']
      · by_cases hk' : p.1 = k'
        · simp [aerase, alookup, hk, hk', h]
        · simp [aerase, alookup, hk, hk', ih]

theorem alookup_map_snd {α β : Type} (f : α → β) (m : AList α) (k : String) :
    alookup (m.map (fun p => (p.1, f p.2))) k = (alookup m k).map f := by
  induction m with
  | nil => simp [alookup]
  | cons p t ih =>
      by_cases hk : p.1 = k
      · simp [alookup, hk]
      · simp [alookup, hk, ih]

theorem alookup_foldl_aerase {α : Type} (rs : List String) (m : AList α)
    (k : String) (h : k ∉ rs) : alookup (rs.foldl aerase m) k = alookup m k := by
  induction rs generalizing m with
  | nil => rfl
  | cons r rs ih =>
      have hk : k ≠ r := fun e => h (e ▸ List.mem_cons_self r rs)
      have hrs : k ∉ rs := fun hm => h (List.mem_cons_of_mem _ hm)
      simpa [List.foldl_cons, ih (aerase m r) hrs] using alookup_aerase_ne m r k hk

theorem alookup_eq_none_of_not_mem {α : Type} (m : AList α) (k : String)
    (h : k ∉ m.map Prod.fst) : alookup m k = none := by
  induction m with
  | nil => rfl
  | cons p t ih =>
      have hk : ¬ (p.1 = k) := fun e => h (by simp [e])
      have ht : k ∉ t.map Prod.fst := fun hm => h (by simp [hm])
      simp [alookup, hk, ih ht]

/-! ## Lemmas about `clean_artists_database` -/

theorem alookup_clean_none (now pid : String) (artists : AList Artist)
    (k : String) (h : alookup artists k = none) :
    alookup (PlaylistRemover.clean_artists_database now pid artists) k = none := by
  induction artists with
  | nil => rfl
  | cons p t ih =>
      obtain ⟨k0, a0⟩ := p
      by_cases hk : k0 = k
      · simp [alookup, hk] at h
      · have ht : alookup t k = none := by simpa [alookup, hk] using h
        by_cases h1 : pid ∈ a0.playlist_ids
        · by_cases h2 : a0.playlist_ids.erase pid = []
          · simpa [PlaylistRemover.clean_artists_database, h1, h2] using ih ht
          · simpa [PlaylistRemover.clean_artists_database, h1, h2, alookup, hk] using ih ht
        · simpa [PlaylistRemover.clean_artists_database, h1, alookup, hk] using ih ht

theorem alookup_clean (now pid : String) (artists : AList Artist) (k : String)
    (a : Artist) (hnd : (artists.map Prod.fst).Nodup)
    (h : alookup artists k = some a) :
    alookup (PlaylistRemover.clean_artists_database now pid artists) k =
      (if pid ∈ a.playlist_ids ∧ a.playlist_ids.erase pid = [] then none
       else some { a with playlist_ids := a.playlist_ids.erase pid, last_updated := if pid ∈ a.playlist_ids then now else a.last_updated }) := by
  induction artists with
  | nil => simp [alookup] at h
  | cons p t ih =>
      obtain ⟨k0, a0⟩ := p
      have hnd0 : k0 ∉ t.map Prod.fst := (List.nodup_cons.mp (by simpa using hnd)).1
      have hnd' : (t.map Prod.fst).Nodup := (List.nodup_cons.mp (by simpa using hnd)).2
      by_cases hk : k0 = k
      · have ha : a0 = a := by simpa [alookup, hk] using h
        subst ha
        have htnone : alookup t k = none :=
          alookup_eq_none_of_not_mem t k (hk ▸ hnd0)
        by_cases h1 : pid ∈ a0.playlist_ids
        · by_cases h2 : a0.playlist_ids.erase pid = []
          · simp [PlaylistRemover.clean_artists_database, h1, h2,
              alookup_clean_none now pid t k htnone]
          · simp [PlaylistRemover.clean_artists_database, h1, h2, alookup, hk]
        · simp [PlaylistRemover.clean_artists_database, h1, alookup, hk,
            List.erase_of_not_mem h1]
      · have ht : alookup t k = some a := by simpa [alookup, hk] using h
        by_cases h1 : pid ∈ a0.playlist_ids
        · by_cases h2 : a0.playlist_ids.erase pid = []
          · simpa [PlaylistRemover.clean_artists_database, h1, h2] using ih hnd' ht
          · simpa [PlaylistRemover.clean_artists_database, h1, h2, alookup, hk]
              using ih hnd' ht
        · simpa [PlaylistRemover.clean_artists_database, h1, alookup, hk]
            using ih hnd' ht

/-! ## Claims -/

/-- C5 counterexample: the claim quantifies over every save routine, but
`PlaylistRemover.save_databases` wraps the four writes in a single `try`
block: on `c5state` — whose artists and mapping documents are loaded — a
failing songs-store write aborts the run after attempting only the songs
store (the playlists, artists and mapping writes are never attempted) and
the caller gets a single `False`, not a per-store tally. -/
theorem C5_remover_save_not_independent :
    (PlaylistRemover.save_databases okNoSongs "t2" c5state).1 = false
    ∧ (PlaylistRemover.save_databases okNoSongs "t2" c5state).2.2 = [StoreTag.songs] := by
  decide

/-- C5 (amended): independent per-store writes with a success tally hold for
`SongCleanupTool.save_all_databases` (four stores) and for
`PlaylistSongDownloader.save_databases` (three stores), but not for
`PlaylistRemover.save_databases`, whose single `try` block stops at the
first failing write.  Proved here for the cleanup tool: whatever the write
oracle says, all four stores are attempted, in order, and the reported
tally is exactly the number of successful writes. -/
theorem C5_cleanup_save_independent (ok : StoreTag → Bool)
    (st : SongCleanupTool.CTState) :
    (SongCleanupTool.save_all_databases ok st).2
      = [StoreTag.songs, StoreTag.playlists, StoreTag.mapping, StoreTag.artists]
    ∧ (SongCleanupTool.save_all_databases ok st).1
      = (([StoreTag.songs, StoreTag.playlists, StoreTag.mapping,
           StoreTag.artists].filter (fun t => ok t)).length) := by
  refine ⟨rfl, ?_⟩
  cases h1 : ok StoreTag.songs <;> cases h2 : ok StoreTag.playlists <;>
    cases h3 : ok StoreTag.mapping <;> cases h4 : ok StoreTag.artists <;>
      simp [SongCleanupTool.save_all_databases, h1, h2, h3, h4]

/-- C7: `add_playlist_to_song` is idempotent and reports mutation: a second
call with the same arguments returns `false` and leaves the songs store as
the first call left it, and the first call returns `true` exactly when it
changed the songs store. -/
theorem C7_attach_idempotent (songs : AList Song) (S P : String) :
    (BatchArtistScraper.add_playlist_to_song
        (BatchArtistScraper.add_playlist_to_song songs S P).2 S P
      = (false, (BatchArtistScraper.add_playlist_to_song songs S P).2))
    ∧ ((BatchArtistScraper.add_playlist_to_song songs S P).1 = true
        ↔ (BatchArtistScraper.add_playlist_to_song songs S P).2 ≠ songs) := by
  cases h : alookup songs S with
  | none => simp [BatchArtistScraper.add_playlist_to_song, h]
  | some s =>
      by_cases hP : P ∈ s.playlists
      · simp [BatchArtistScraper.add_playlist_to_song, h, hP]
      · have hlk : alookup (aset songs S { s with playlists := s.playlists ++ [P] }) S
            = some { s with playlists := s.playlists ++ [P] } :=
          alookup_aset_self songs S _
        have hne : aset songs S { s with playlists := s.playlists ++ [P] } ≠ songs := by
          intro heq
          have h2 := congrArg (fun m => alookup m S) heq
          simp only [hlk, h] at h2
          have h3 := congrArg Song.playlists (Option.some.inj h2)
          have h4 := congrArg List.length h3
          simp [List.length_append] at h4
        constructor
        · simp [BatchArtistScraper.add_playlist_to_song, h, hP, hlk]
        · simp [BatchArtistScraper.add_playlist_to_song, h, hP, hne]

/-- C8 counterexample: the claim quantifies over every save, but
`PlaylistSongDownloader.save_databases` writes the in-memory documents
unchanged: on `c8state` all three writes succeed, yet the written songs
document keeps its stale counter `total_songs = 1` against an empty songs
collection, and its stale `last_updated` stamp. -/
theorem C8_downloader_save_stale :
    (PlaylistSongDownloader.save_databases allOk c8state).1 = 3
    ∧ (PlaylistSongDownloader.save_databases allOk c8state).2.songs_db.total_songs = 1
    ∧ (PlaylistSongDownloader.save_databases allOk c8state).2.songs_db.songs.length = 0
    ∧ (PlaylistSongDownloader.save_databases allOk c8state).2.songs_db.last_updated
        = "2024-01-01" := by
  decide

/-- C8 (amended): the scraper's `save_databases` recomputes every `total_*`
counter from the length of the live in-memory collection it persists and
stamps `last_updated = now` on all four documents; the downloader's save
writes its documents as-is, so the guarantee is restricted to the scraper
(and remover) saves. -/
theorem C8_scraper_save_recomputes (now : String)
    (sm : BatchArtistScraper.SmartState) :
    (BatchArtistScraper.save_databases now sm).1.total_songs
        = sm.existing_songs.length
    ∧ (BatchArtistScraper.save_databases now sm).1.songs = sm.existing_songs
    ∧ (BatchArtistScraper.save_databases now sm).2.1.total_playlists
        = sm.existing_playlists.length
    ∧ (BatchArtistScraper.save_databases now sm).2.1.playlists = sm.existing_playlists
    ∧ (BatchArtistScraper.save_databases now sm).2.2.1.total_artists
        = sm.existing_artists.length
    ∧ (BatchArtistScraper.save_databases now sm).2.2.1.artists = sm.existing_artists
    ∧ (BatchArtistScraper.save_databases now sm).1.last_updated = now
    ∧ (BatchArtistScraper.save_databases now sm).2.1.last_updated = now
    ∧ (BatchArtistScraper.save_databases now sm).2.2.1.last_updated = now
    ∧ (BatchArtistScraper.save_databases now sm).2.2.2.last_updated = now :=
  ⟨rfl, rfl, rfl, rfl, rfl, rfl, rfl, rfl, rfl, rfl⟩

/-- C10: when `find_playlist_by_name` has no candidate at all (the match
list is empty), `remove_playlist` returns `False` with the state untouched,
no store file written and no song file deleted. -/
theorem C10_remove_missing_noop (ok : StoreTag → Bool) (now : String)
    (pick : Option Nat) (answerYes confirm : Bool)
    (st : PlaylistRemover.RPState) (playlist_name : String)
    (h : PlaylistRemover.matchesFor st playlist_name = []) :
    PlaylistRemover.remove_playlist ok now pick answerYes confirm st playlist_name
      = (false, st, [], []) := by
  have hfind : PlaylistRemover.find_playlist_by_name st playlist_name pick = none := by
    unfold PlaylistRemover.find_playlist_by_name
    rw [h]
  unfold PlaylistRemover.remove_playlist
  rw [hfind]

/-- C10 witness: on `c10state` (one playlist named `Rock`) the query `zzz`
matches nothing and the removal is a no-op returning `False`. -/
theorem C10_remove_missing_noop_witness :
    PlaylistRemover.matchesFor c10state "zzz" = []
    ∧ PlaylistRemover.remove_playlist allOk "t2" none true true c10state "zzz"
        = (false, c10state, [], []) :=
  ⟨by decide, C10_remove_missing_noop allOk "t2" none true true c10state "zzz" (by decide)⟩

/-- C1 (failing-input evaluation): on `c1state` — a catalog written by the
scraper itself, whose playlist record keeps its member list under the
`'songs'` key — a confirmed `remove_playlist` reports success, yet its only
member song (which is in no other playlist) is neither detached nor deleted:
it survives in the songs store still holding the removed playlist id, its
mapping entry survives unchanged, and no song file deletion is attempted,
because `get_songs_in_playlist` reads the `'song_ids'` key that no writer of
this repository produces. -/
theorem C1_cascade_misses_scraper_playlists :
    (PlaylistRemover.remove_playlist allOk "2024-02-02" none true true c1state
        "Arijit").1 = true
    ∧ (alookup (PlaylistRemover.remove_playlist allOk "2024-02-02" none true true
        c1state "Arijit").2.1.songs_db.songs "song_0000000001").map Song.playlists
        = some ["artist_A1"]
    ∧ ((PlaylistRemover.remove_playlist allOk "2024-02-02" none true true c1state
        "Arijit").2.1.mapping_db.map (fun mdb => alookup mdb.mapping "song_0000000001"))
        = some (some ["artist_A1"])
    ∧ alookup (PlaylistRemover.remove_playlist allOk "2024-02-02" none true true
        c1state "Arijit").2.1.playlists_db.playlists "artist_A1" = none
    ∧ (PlaylistRemover.remove_playlist allOk "2024-02-02" none true true c1state
        "Arijit").2.2.2 = [] := by
  decide

/-- C2 counterexample: a completed cascade apply violates both halves of the
claimed invariant.  On `c2state` the removal of playlist `P1` succeeds;
afterwards the kept song `S1` has `playlists = [P2]` while its mapping entry
still reads `[P1, P2]`, and song `S2` still holds the playlist id `P1`,
which no longer exists in the playlist store. -/
theorem C2_cascade_breaks_mapping :
    (PlaylistRemover.remove_playlist allOk "t2" none true false c2state "AAA").1 = true
    ∧ (alookup (PlaylistRemover.remove_playlist allOk "t2" none true false c2state
        "AAA").2.1.songs_db.songs "S1").map Song.playlists = some ["P2"]
    ∧ ((PlaylistRemover.remove_playlist allOk "t2" none true false c2state
        "AAA").2.1.mapping_db.map (fun mdb => alookup mdb.mapping "S1"))
        = some (some ["P1", "P2"])
    ∧ (alookup (PlaylistRemover.remove_playlist allOk "t2" none true false c2state
        "AAA").2.1.songs_db.songs "S2").map Song.playlists = some ["P1"]
    ∧ alookup (PlaylistRemover.remove_playlist allOk "t2" none true false c2state
        "AAA").2.1.playlists_db.playlists "P1" = none := by
  decide

/-- C2 (amended): the mapping-equals-playlists invariant holds after a
completed ingestion save — the scraper's `save_databases` rebuilds the
mapping document from the songs store, so every song's mapping entry equals
its playlist list (and ids absent from the songs store are absent from the
mapping) — while a cascade apply touches the mapping only by deleting the
removed songs' entries: every other entry is left exactly as it was. -/
theorem C2_mapping_rebuilt_on_ingestion_save :
    (∀ (now : String) (sm : BatchArtistScraper.SmartState) (k : String),
        alookup (BatchArtistScraper.save_databases now sm).2.2.2.mapping k
          = (alookup sm.existing_songs k).map Song.playlists)
    ∧ (∀ (mapping : AList (List String)) (removed : List String) (k : String),
        k ∉ removed →
        alookup (PlaylistRemover.update_mapping_core removed mapping) k
          = alookup mapping k) := by
  constructor
  · intro now sm k
    exact alookup_map_snd Song.playlists sm.existing_songs k
  · intro m removed k h
    exact alookup_foldl_aerase removed m k h

/-- C2 witness for the amended statement, at a one-song manager and a
two-entry mapping from which one other song is removed. -/
theorem C2_mapping_rebuilt_witness :
    alookup (BatchArtistScraper.save_databases "t2" c4managerW).2.2.2.mapping "id2"
        = (alookup c4managerW.existing_songs "id2").map Song.playlists
    ∧ (("S9" : String) ∉ (["S1"] : List String)
       ∧ alookup (PlaylistRemover.update_mapping_core ["S1"]
            [("S9", ["P1"]), ("S1", ["P1"])]) "S9"
          = alookup [("S9", ["P1"]), ("S1", ["P1"])] "S9") :=
  ⟨C2_mapping_rebuilt_on_ingestion_save.1 "t2" c4managerW "id2",
   by decide,
   C2_mapping_rebuilt_on_ingestion_save.2 [("S9", ["P1"]), ("S1", ["P1"])] ["S1"] "S9"
     (by decide)⟩

/-- C3 counterexample: the "planning" pass is not pure.  On `c3state`, with
confirmation requested and declined, `remove_playlist` returns `False` and
writes nothing, yet the in-memory songs store has already lost the playlist
id from the member song: `S1` went from `[P1, P2]` to `[P2]`. -/
theorem C3_declined_removal_mutates :
    (PlaylistRemover.remove_playlist allOk "t2" none false true c3state "AAA").1 = false
    ∧ (alookup (PlaylistRemover.remove_playlist allOk "t2" none false true c3state
        "AAA").2.1.songs_db.songs "S1").map Song.playlists = some ["P2"]
    ∧ (alookup c3state.songs_db.songs "S1").map Song.playlists = some ["P1", "P2"]
    ∧ (PlaylistRemover.remove_playlist allOk "t2" none false true c3state
        "AAA").2.1 ≠ c3state := by
  decide

/-- C3 (amended): when the playlist is found and the caller declines at the
confirmation prompt, `remove_playlist` returns `False`, writes no store
file and deletes no song file, and leaves the playlists, artists and
mapping stores untouched — but the songs store keeps the eager detachment
performed by `remove_playlist_from_songs` during the impact analysis. -/
theorem C3_decline_keeps_eager_detach (ok : StoreTag → Bool) (now : String)
    (pick : Option Nat) (st : PlaylistRemover.RPState)
    (playlist_name playlist_id : String)
    (hfind : PlaylistRemover.find_playlist_by_name st playlist_name pick
      = some playlist_id)
    (hne : playlist_id ≠ "") :
    PlaylistRemover.remove_playlist ok now pick false true st playlist_name
      = (false,
         { st with songs_db := { st.songs_db with songs :=
             (PlaylistRemover.remove_playlist_from_songs playlist_id
               (PlaylistRemover.get_songs_in_playlist st playlist_id)
               st.songs_db.songs).2 } },
         [], []) := by
  unfold PlaylistRemover.remove_playlist
  rw [hfind]
  simp [hne]

/-- C3 witness for the amended statement: on `c3state` the query `AAA`
resolves to `P1` and the declined removal returns `False` with exactly the
eagerly-detached songs store. -/
theorem C3_decline_keeps_eager_detach_witness :
    PlaylistRemover.find_playlist_by_name c3state "AAA" none = some "P1"
    ∧ PlaylistRemover.remove_playlist allOk "t2" none false true c3state "AAA"
        = (false,
           { c3state with songs_db := { c3state.songs_db with songs :=
               (PlaylistRemover.remove_playlist_from_songs "P1"
                 (PlaylistRemover.get_songs_in_playlist c3state "P1")
                 c3state.songs_db.songs).2 } },
           [], []) :=
  ⟨by decide,
   C3_decline_keeps_eager_detach allOk "t2" none c3state "AAA" "P1" (by decide) (by decide)⟩

/-- C4 counterexample: resolution is not a function of title and artist
alone.  In `c4manager` (loaded from a store whose song `id1` carries uri
`u1` under the title `b`/`y`, next to song `id2` titled `A`/`X`), the two
descriptors of the claim's scenario — same title `A`, same artist `X`, one
with uri `u1`, one without — resolve to the distinct ids `id1` and `id2`. -/
theorem C4_resolution_depends_on_uri :
    c4desc1.track_name = c4desc2.track_name
    ∧ c4desc1.artists_string = c4desc2.artists_string
    ∧ BatchArtistScraper.resolveSongId c4manager c4desc1 = "id1"
    ∧ BatchArtistScraper.resolveSongId c4manager c4desc2 = "id2"
    ∧ BatchArtistScraper.resolveSongId c4manager c4desc1
        ≠ BatchArtistScraper.resolveSongId c4manager c4desc2 := by
  decide

/-- C4 (amended): `generate_song_id` is a pure function of title and artist
(the uri never enters it), and resolution agrees on two descriptors with
the same title and artist whenever neither descriptor's uri hits the uri
index — in particular in the spec's fresh-store scenario; only a uri
already indexed to a record stored under a different title/artist can make
the two resolutions differ. -/
theorem C4_resolution_same_when_uri_unindexed
    (sm : BatchArtistScraper.SmartState) (d1 d2 : TrackInfo)
    (hn : d1.track_name = d2.track_name)
    (ha : d1.artists_string = d2.artists_string)
    (h1 : d1.track_uri = "" ∨ alookup sm.uri_to_song_id d1.track_uri = none)
    (h2 : d2.track_uri = "" ∨ alookup sm.uri_to_song_id d2.track_uri = none) :
    BatchArtistScraper.resolveSongId sm d1 = BatchArtistScraper.resolveSongId sm d2 := by
  have hf : BatchArtistScraper.find_existing_song sm d1
      = BatchArtistScraper.find_existing_song sm d2 := by
    unfold BatchArtistScraper.find_existing_song
    rcases h1 with h1 | h1 <;> rcases h2 with h2 | h2 <;> simp [h1, h2, hn, ha]
  unfold BatchArtistScraper.resolveSongId
  rw [hf, hn, ha]

/-- C4 witness for the amended statement: in `c4managerW` the descriptors
`{A, X, u9}` (uri unindexed) and `{A, X}` (no uri) resolve identically. -/
theorem C4_resolution_same_witness :
    c4desc1W.track_name = c4desc2.track_name
    ∧ c4desc1W.artists_string = c4desc2.artists_string
    ∧ (c4desc1W.track_uri = ""
        ∨ alookup c4managerW.uri_to_song_id c4desc1W.track_uri = none)
    ∧ (c4desc2.track_uri = ""
        ∨ alookup c4managerW.uri_to_song_id c4desc2.track_uri = none)
    ∧ BatchArtistScraper.resolveSongId c4managerW c4desc1W
        = BatchArtistScraper.resolveSongId c4managerW c4desc2 :=
  ⟨by decide, by decide, by decide, by decide,
   C4_resolution_same_when_uri_unindexed c4managerW c4desc1W c4desc2
     (by decide) (by decide) (by decide) (by decide)⟩

/-- C9 counterexample: a hit via the uri key does not index the incoming
name+artist key shape.  In `c9manager` the descriptor `{A, X, u1}` resolves
to `s1` through the uri index; after the full per-track processing step the
later lookup of `{A, X}` (the freshly supplied key shape, no uri) still
fails. -/
theorem C9_hit_does_not_index_new_shape :
    BatchArtistScraper.find_existing_song c9manager c4desc1 = some "s1"
    ∧ BatchArtistScraper.find_existing_song
        (BatchArtistScraper.processTrack "t2" "P1" c9manager c4desc1) c4desc2 = none := by
  decide

/-- C9 (amended): the resolver never touches its lookup tables after load:
a full per-track processing step — artist upserts, resolution, playlist
attach or new-song install — leaves both the uri index and the name+artist
index exactly as they were, so within a run they neither gain nor lose
entries. -/
theorem C9_lookup_tables_constant (now playlist_key : String)
    (sm : BatchArtistScraper.SmartState) (t : TrackInfo) :
    (BatchArtistScraper.processTrack now playlist_key sm t).uri_to_song_id
        = sm.uri_to_song_id
    ∧ (BatchArtistScraper.processTrack now playlist_key sm t).name_artist_to_song_id
        = sm.name_artist_to_song_id := by
  constructor <;>
    · simp only [BatchArtistScraper.processTrack]
      split <;> rfl

/-- C6: artist records exist exactly while they reference some playlist.
Conjuncts: (1) `store_artist_info` preserves "every artist's playlist-id
list is non-empty"; (2) it never touches other artists; (3) on an existing
artist it only ever adds the playlist id (appending it when absent, leaving
the list unchanged when present); (4) on a fresh uri it installs the
singleton list; (5) `clean_artists_database` maps each artist to its list
with the removed id erased, purging exactly those artists whose list
becomes empty and stamping exactly those it modifies; (6) for
duplicate-free lists (lists standing for sets) the erased id is really
gone. -/
theorem C6_artist_iff_referenced :
    (∀ (now : String) (artists : AList Artist) (uri name key : String),
        (∀ u a, alookup artists u = some a → a.playlist_ids ≠ []) →
        ∀ u a', alookup (BatchArtistScraper.store_artist_info now artists uri name key) u
          = some a' → a'.playlist_ids ≠ [])
    ∧ (∀ (now : String) (artists : AList Artist) (uri name key u : String),
        u ≠ uri →
        alookup (BatchArtistScraper.store_artist_info now artists uri name key) u
          = alookup artists u)
    ∧ (∀ (now : String) (artists : AList Artist) (uri name key : String) (a0 : Artist),
        alookup artists uri = some a0 →
        (alookup (BatchArtistScraper.store_artist_info now artists uri name key)
            uri).map Artist.playlist_ids
          = some (if key ∈ a0.playlist_ids then a0.playlist_ids
                  else a0.playlist_ids ++ [key]))
    ∧ (∀ (now : String) (artists : AList Artist) (uri name key : String),
        alookup artists uri = none →
        (alookup (BatchArtistScraper.store_artist_info now artists uri name key)
            uri).map Artist.playlist_ids = some [key])
    ∧ (∀ (now pid : String) (artists : AList Artist) (k : String) (a : Artist),
        (artists.map Prod.fst).Nodup → alookup artists k = some a →
        alookup (PlaylistRemover.clean_artists_database now pid artists) k =
          (if pid ∈ a.playlist_ids ∧ a.playlist_ids.erase pid = [] then none
           else some { a with playlist_ids := a.playlist_ids.erase pid, last_updated := if pid ∈ a.playlist_ids then now else a.last_updated }))
    ∧ (∀ (pid : String) (ids : List String), ids.Nodup → pid ∉ ids.erase pid) := by
  refine ⟨?_, ?_, ?_, ?_, ?_, ?_⟩
  · intro now artists uri name key hinv u a' h
    unfold BatchArtistScraper.store_artist_info at h
    cases h0 : alookup artists uri with
    | some a0 =>
        by_cases hkey : key ∈ a0.playlist_ids
        · simp only [h0, if_pos hkey] at h
          exact hinv u a' h
        · by_cases hu : u = uri
          · subst hu
            simp only [h0, if_neg hkey, alookup_aset_self] at h
            cases h
            simp
          · simp only [h0, if_neg hkey] at h
            rw [alookup_aset_ne _ _ _ _ hu] at h
            exact hinv u a' h
    | none =>
        by_cases hu : u = uri
        · subst hu
          simp only [h0, alookup_aset_self] at h
          cases h
          simp
        · simp only [h0] at h
          rw [alookup_aset_ne _ _ _ _ hu] at h
          exact hinv u a' h
  · intro now artists uri name key u hu
    unfold BatchArtistScraper.store_artist_info
    cases h0 : alookup artists uri with
    | some a0 =>
        by_cases hkey : key ∈ a0.playlist_ids
        · simp only [h0, if_pos hkey]
        · simp only [h0, if_neg hkey]
          exact alookup_aset_ne _ _ _ _ hu
    | none =>
        simp only [h0]
        exact alookup_aset_ne _ _ _ _ hu
  · intro now artists uri name key a0 h0
    unfold BatchArtistScraper.store_artist_info
    by_cases hkey : key ∈ a0.playlist_ids
    · simp only [h0, if_pos hkey]
      rfl
    · simp only [h0, if_neg hkey, alookup_aset_self]
      rfl
  · intro now artists uri name key h0
    unfold BatchArtistScraper.store_artist_info
    simp only [h0, alookup_aset_self]
    rfl
  · intro now pid artists k a hnd h
    exact alookup_clean now pid artists k a hnd h
  · intro pid ids hnd hmem
    exact List.Nodup.not_mem_erase hnd hmem

/-- C6 witness: the conjuncts instantiated at concrete inputs — an empty
artists store for the preservation conjunct, and `c6artists` (one artist in
`{P1, P2}`, one only in `P1`) for the others: removing `P1` keeps the first
artist with exactly `[P2]` and purges the second. -/
theorem C6_artist_iff_referenced_witness :
    ((∀ u a, alookup ([] : AList Artist) u = some a → a.playlist_ids ≠ [])
      ∧ (∀ u a', alookup (BatchArtistScraper.store_artist_info "t1" [] "u1" "N1" "P1") u
          = some a' → a'.playlist_ids ≠ []))
    ∧ (("u2" : String) ≠ "u1"
       ∧ alookup (BatchArtistScraper.store_artist_info "t1" c6artists "u1" "N1" "P3") "u2"
          = alookup c6artists "u2")
    ∧ (alookup c6artists "u1" = some c6artist1
       ∧ (alookup (BatchArtistScraper.store_artist_info "t1" c6artists "u1" "N1" "P3")
            "u1").map Artist.playlist_ids
          = some (if ("P3" : String) ∈ c6artist1.playlist_ids then c6artist1.playlist_ids
                  else c6artist1.playlist_ids ++ ["P3"]))
    ∧ (alookup c6artists "u9" = none
       ∧ (alookup (BatchArtistScraper.store_artist_info "t1" c6artists "u9" "N9" "P1")
            "u9").map Artist.playlist_ids = some ["P1"])
    ∧ ((c6artists.map Prod.fst).Nodup
       ∧ alookup c6artists "u2" = some c6artist2
       ∧ alookup (PlaylistRemover.clean_artists_database "t1" "P1" c6artists) "u2" =
          (if ("P1" : String) ∈ c6artist2.playlist_ids ∧ c6artist2.playlist_ids.erase "P1" = [] then none
           else some { c6artist2 with playlist_ids := c6artist2.playlist_ids.erase "P1", last_updated := if ("P1" : String) ∈ c6artist2.playlist_ids then "t1" else c6artist2.last_updated }))
    ∧ ((["P1", "P2"] : List String).Nodup
       ∧ ("P1" : String) ∉ (["P1", "P2"] : List String).erase "P1") := by
  refine ⟨⟨fun u a h => Option.noConfusion h,
      C6_artist_iff_referenced.1 "t1" [] "u1" "N1" "P1"
        (fun u a h => Option.noConfusion h)⟩,
    ⟨by decide, C6_artist_iff_referenced.2.1 "t1" c6artists "u1" "N1" "P3" "u2"
        (by decide)⟩,
    ⟨by decide, C6_artist_iff_referenced.2.2.1 "t1" c6artists "u1" "N1" "P3" c6artist1
        (by decide)⟩,
    ⟨by decide, C6_artist_iff_referenced.2.2.2.1 "t1" c6artists "u9" "N9" "P1"
        (by decide)⟩,
    ⟨by decide, by decide, C6_artist_iff_referenced.2.2.2.2.1 "t1" "P1" c6artists "u2" c6artist2
        (by decide) (by decide)⟩,
    ⟨by decide, C6_artist_iff_referenced.2.2.2.2.2 "P1" ["P1", "P2"] (by decide)⟩⟩

end SongCatalog
